import Mathlib

/-!
Verification development for the mGBA wasm platform layer
(src/src/platform/wasm/main.c): a shallow embedding of the frame-pacing
run loop, the session lifecycle entry points, key handling, and the
volume / fast-forward controls, together with theorems about them.

Modelling conventions:
* C `double` is modelled as `ℚ` (exact arithmetic), C `int` as `Int`
  (unbounded; signed-overflow UB is not modelled).
* The global `struct mEmscriptenRenderer renderer` is an explicit state
  value threaded through every operation.
* External collaborators (the emulation engine behind `renderer.core`,
  SDL audio/video, the emscripten main loop) are modelled by explicit
  state fields and by parameters carrying their results: e.g. the result
  of `mCoreFind` is the `found` parameter of `loadGame`, the result of
  `mCoreLoadFile` is the `loadFileOk` parameter.
* A C null-pointer dereference is modelled by returning `Except.error ()`;
  operations that cannot dereference a null handle are total functions.
* `runFrame` calls are counted rather than interpreted: each operation of
  the run loop returns the number of `runFrame` invocations it performs.
-/

namespace MgbaWasm

/-- Truncation toward zero: the semantics of the C cast from `double` to a
signed integer type (`Sint32 nowFramesInt = numberOfFrames;` in `runLoop`,
`(int) (vol * 0x100)` in `setVolume`). -/
def truncTowardZero (q : ℚ) : Int :=
  if 0 ≤ q then ⌊q⌋ else -⌊-q⌋

/-- Integer-valued configuration store of the core
(`mCoreConfigSetDefaultIntValue` / `mCoreConfigGetIntValue`): an
association list from option names to values, where setting an option
replaces any previous binding. -/
def setConfigInt (cfg : List (String × Int)) (k : String) (v : Int) :
    List (String × Int) :=
  (k, v) :: cfg.filter (fun p => p.1 != k)

/-- Lookup in the integer configuration store (`mCoreConfigGetIntValue`). -/
def getConfigInt (cfg : List (String × Int)) (k : String) : Option Int :=
  (cfg.find? (fun p => p.1 == k)).map (fun p => p.2)

/-- String-valued configuration store (`mCoreConfigSetDefaultValue`). -/
def setConfigStr (cfg : List (String × String)) (k : String) (v : String) :
    List (String × String) :=
  (k, v) :: cfg.filter (fun p => p.1 != k)

/-- The state of one loaded machine instance reachable through
`renderer.core`: the configuration store (`core->config`), the loaded
options (`core->opts`), the four working-directory paths set by
`loadGame`, the currently pressed key mask (`addKeys` / `clearKeys`),
the input map (`mInputMapKey`, returning -1 for unmapped keys), and a
counter of `core->reset` calls standing for the engine-side machine
state reinitialisation. -/
structure EmCore where
  config : List (String × Int)
  configStr : List (String × String)
  optsVolume : Int
  optsFrameskip : Int
  savegamePath : String
  savestatePath : String
  cheatsPath : String
  screenshotPath : String
  keys : Nat
  mapKey : Int → Int
  resetCount : Nat

/-- The `mSDLAudio`-backed audio state embedded in the renderer
(`renderer.audio`): static stream configuration plus the running flag
toggled by `mSDLPauseAudio` / `mSDLResumeAudio`. -/
structure MSDLAudio where
  sampleRate : Nat
  samples : Nat
  fpsTarget : ℚ
  running : Bool

/-- The global `struct mEmscriptenRenderer renderer` of main.c:
the nullable core handle, audio state, the frame-pacing state
(`lastLoopTime`, `frameTime`, `renderFirstFrame`, `fastForwardSpeed`),
the SDL texture and window dimensions, and the emscripten main-loop
running flag (`emscripten_pause_main_loop` /
`emscripten_resume_main_loop`). -/
structure MEmscriptenRenderer where
  core : Option EmCore
  audio : MSDLAudio
  lastLoopTime : ℚ
  frameTime : ℚ
  renderFirstFrame : Bool
  fastForwardSpeed : Int
  texW : Nat
  texH : Nat
  windowW : Nat
  windowH : Nat
  mainLoopRunning : Bool

/-- The static initializer of the global `renderer` (main.c lines 23-27)
together with the `lastLoopTime = 0; frameTime = 0;` assignments in
`main` (lines 457-458). -/
def initialRenderer : MEmscriptenRenderer :=
  { core := none
    audio := { sampleRate := 48000, samples := 4096, fpsTarget := 60, running := false }
    lastLoopTime := 0
    frameTime := 0
    renderFirstFrame := true
    fastForwardSpeed := 1
    texW := 0
    texH := 0
    windowW := 0
    windowH := 0
    mainLoopRunning := true }

/-- SDL keycode of the fast-forward toggle key `SDLK_f`. -/
def SDLK_f : Int := 102

/-- SDL NumLock modifier bit `KMOD_NUM`. -/
def KMOD_NUM : Nat := 0x1000

/-- SDL CapsLock modifier bit `KMOD_CAPS`. -/
def KMOD_CAPS : Nat := 0x2000

/-- One `SDL_KeyboardEvent` as consumed by `handleKeypressCore`:
the keysym (`keysym.sym`), the modifier bitmask (`keysym.mod`, a 16-bit
value), and whether the event type is `SDL_KEYDOWN` (else `SDL_KEYUP`). -/
structure KeyboardEvent where
  sym : Int
  mod : Nat
  isKeyDown : Bool

/-- Value of the local variable `key` in `handleKeypressCore` (main.c
lines 39-42): the key is translated through the input map only when no
modifier outside NumLock/CapsLock is held
(`!(event->keysym.mod & ~(KMOD_NUM | KMOD_CAPS))`, computed with the
32-bit `int` complement), and is -1 otherwise. -/
def translateKey (event : KeyboardEvent) (core : EmCore) : Int :=
  if event.mod &&& (0xFFFFFFFF ^^^ (KMOD_NUM ||| KMOD_CAPS)) = 0 then
    core.mapKey event.sym
  else
    -1

/-- `handleKeypressCore` (main.c lines 34-50), with the value of the
local variable `key` factored out as `translateKey`.  The `core`
argument is `renderer.core`, which the caller (`runLoop`, line 59) has
checked to be non-null.  The keysym `f` is handled before the modifier
filter and sets the fast-forward speed; otherwise a successful
translation adds or clears the key bit on the core. -/
def handleKeypressCore (event : KeyboardEvent) (r : MEmscriptenRenderer)
    (core : EmCore) : MEmscriptenRenderer :=
  if event.sym = SDLK_f then
    { r with fastForwardSpeed := if event.isKeyDown then 2 else 1 }
  else
    if translateKey event core ≠ -1 then
      if event.isKeyDown then
        { r with core := some { core with
            keys := core.keys ||| (1 <<< (translateKey event core).toNat) } }
      else
        { r with core := some { core with
            keys := core.keys ^^^ (core.keys &&& (1 <<< (translateKey event core).toNat)) } }
    else
      r

/-- The `SDL_PollEvent` loop at the top of `runLoop` (lines 54-64):
each pending keyboard event is handed to `handleKeypressCore`, but only
while `renderer.core` is non-null. -/
def processEvents (events : List KeyboardEvent) (r : MEmscriptenRenderer) :
    MEmscriptenRenderer :=
  events.foldl
    (fun acc ev =>
      match acc.core with
      | some c => handleKeypressCore ev acc c
      | none => acc)
    r

/-- The target frame duration `1000.0 / 60.0` milliseconds
(main.c line 70). -/
def targetFrameTime : ℚ := 1000 / 60

/-- `runLoop` (main.c lines 53-119), the emscripten main-loop callback.
`events` are the pending SDL keyboard events, `now` is the value of
`emscripten_get_now()`.  Returns the new renderer state and the number
of `core->runFrame` calls performed this tick.  The presentation part
(texture unlock / render copy / relock and `setVideoBuffer`) only talks
to SDL and does not change the modelled state. -/
def runLoop (events : List KeyboardEvent) (r0 : MEmscriptenRenderer)
    (now : ℚ) : MEmscriptenRenderer × Nat :=
  let r := processEvents events r0
  match r.core with
  | some _ =>
    let elapsed := now - r.lastLoopTime
    let r := { r with lastLoopTime := now }
    let frameTime := r.frameTime + elapsed
    let numberOfFrames := (frameTime + 1/5) / targetFrameTime
    let nowFramesInt := truncTowardZero numberOfFrames
    if nowFramesInt < 1 then
      ({ r with frameTime := frameTime }, 0)
    else
      let frameTime := frameTime - (nowFramesInt : ℚ) * targetFrameTime
      let frameTime := if frameTime < 0 then 0 else frameTime
      let nowFramesInt :=
        if (1 : Int) < r.fastForwardSpeed then nowFramesInt * r.fastForwardSpeed
        else nowFramesInt
      let nowFramesInt := if 20 < nowFramesInt then 20 else nowFramesInt
      if r.renderFirstFrame then
        ({ r with frameTime := frameTime, renderFirstFrame := false }, 1)
      else
        ({ r with frameTime := frameTime }, nowFramesInt.toNat)
  | none =>
    ({ r with renderFirstFrame := true, mainLoopRunning := false }, 0)

/-- `buttonPress` (main.c lines 150-154): adds the key bit when a core is
loaded, otherwise does nothing. -/
def buttonPress (id : Nat) (r : MEmscriptenRenderer) : MEmscriptenRenderer :=
  match r.core with
  | some c => { r with core := some { c with keys := c.keys ||| (1 <<< id) } }
  | none => r

/-- `buttonUnpress` (main.c lines 156-160): clears the key bit when a core
is loaded, otherwise does nothing. -/
def buttonUnpress (id : Nat) (r : MEmscriptenRenderer) : MEmscriptenRenderer :=
  match r.core with
  | some c => { r with core := some { c with keys := c.keys ^^^ (c.keys &&& (1 <<< id)) } }
  | none => r

/-- `setVolume` (main.c lines 162-176): values above 2.0 or below 0 return
immediately; otherwise, with a core loaded, the volume is converted to
fixed point, audio is paused at zero volume and resumed otherwise, and
the `volume` config option is set and reloaded into `opts.volume`. -/
def setVolume (vol : ℚ) (r : MEmscriptenRenderer) : MEmscriptenRenderer :=
  if 2 < vol ∨ vol < 0 then r
  else
    match r.core with
    | none => r
    | some c =>
      let volume : Int := truncTowardZero (vol * 0x100)
      let r :=
        if volume = 0 then { r with audio := { r.audio with running := false } }
        else { r with audio := { r.audio with running := true } }
      { r with core := some { c with
          config := setConfigInt c.config "volume" volume,
          optsVolume := volume } }

/-- `getVolume` (main.c lines 178-180): reads
`renderer.core->opts.volume / 0x100` with no null check, so a missing
core is a null dereference. -/
def getVolume (r : MEmscriptenRenderer) : Except Unit ℚ :=
  match r.core with
  | none => .error ()
  | some c => .ok ((c.optsVolume : ℚ) / 0x100)

/-- `setFastForwardMultiplier` (main.c lines 200-209): for a positive
multiplier, sets the fast-forward speed, retargets
`audio.fpsTarget = 60 * multiplier`, and sets and reloads the
`frameskip` option to `multiplier - 1`; the config access dereferences
`renderer.core` with no null check.  Non-positive multipliers do
nothing. -/
def setFastForwardMultiplier (multiplier : Int) (r : MEmscriptenRenderer) :
    Except Unit MEmscriptenRenderer :=
  if 0 < multiplier then
    match r.core with
    | none => .error ()
    | some c =>
      .ok { r with
        fastForwardSpeed := multiplier,
        audio := { r.audio with fpsTarget := 60 * (multiplier : ℚ) },
        core := some { c with
          config := setConfigInt c.config "frameskip" (multiplier - 1),
          optsFrameskip := multiplier - 1 } }
  else
    .ok r

/-- `getFastForwardMultiplier` (main.c lines 211-213). -/
def getFastForwardMultiplier (r : MEmscriptenRenderer) : Int :=
  r.fastForwardSpeed

/-- `quitGame` (main.c lines 215-223): with a core loaded, sets
`renderFirstFrame`, pauses audio and the main loop, deinitialises the
core and clears the handle; otherwise a no-op. -/
def quitGame (r : MEmscriptenRenderer) : MEmscriptenRenderer :=
  match r.core with
  | some _ =>
    { r with
      renderFirstFrame := true,
      audio := { r.audio with running := false },
      mainLoopRunning := false,
      core := none }
  | none => r

/-- `quickReload` (main.c lines 229-232): sets `renderFirstFrame` and
calls `renderer.core->reset(renderer.core)` with NO null check, so with
no core loaded it dereferences a null handle. -/
def quickReload (r : MEmscriptenRenderer) : Except Unit MEmscriptenRenderer :=
  match r.core with
  | none => .error ()
  | some c =>
    .ok { r with
      renderFirstFrame := true,
      core := some { c with resetCount := c.resetCount + 1 } }

/-- `pauseGame` (main.c lines 234-238): sets `renderFirstFrame`, pauses
audio and the main loop; it never touches the core handle. -/
def pauseGame (r : MEmscriptenRenderer) : MEmscriptenRenderer :=
  { r with
    renderFirstFrame := true,
    audio := { r.audio with running := false },
    mainLoopRunning := false }

/-- `resumeGame` (main.c lines 240-249): reads the `volume` config option
(dereferencing `renderer.core->config` with no null check; `vol` stays
-1 when the option is absent), resumes audio when it is positive, and
resumes the main loop. -/
def resumeGame (r : MEmscriptenRenderer) : Except Unit MEmscriptenRenderer :=
  match r.core with
  | none => .error ()
  | some c =>
    let vol := (getConfigInt c.config "volume").getD (-1)
    let r := if 0 < vol then { r with audio := { r.audio with running := true } } else r
    .ok { r with mainLoopRunning := true }

/-- `saveState` (main.c lines 269-274): returns `false` with no core
loaded, otherwise the result of `mCoreSaveState` (an external engine
call, modelled by the `engineOk` parameter). -/
def saveState (slot : Int) (engineOk : Bool) (r : MEmscriptenRenderer) : Bool :=
  match r.core with
  | some _ => engineOk
  | none => false

/-- `loadState` (main.c lines 276-281): returns `false` with no core
loaded, otherwise the result of `mCoreLoadState` (modelled by
`engineOk`). -/
def loadState (slot : Int) (engineOk : Bool) (r : MEmscriptenRenderer) : Bool :=
  match r.core with
  | some _ => engineOk
  | none => false

/-- `loadGame` (main.c lines 294-347).  Any existing core is deinited and
cleared first.  `found` is the result of `mCoreFind(name)`: `none` makes
`loadGame` return `false` with no core set.  Otherwise the core is
initialised: the four directory paths are assigned, `mCoreLoadFile` is
called but its result `loadFileOk` is IGNORED by the source, the config
defaults `idleOptimization = "detect"` and `volume = 0x100` are set, the
texture is recreated at the base video size `baseW × baseH`, the core is
reset, the window is sized to the current video size `curW × curH`,
audio is resumed and the main loop restarted, and `true` is returned.
Note that `renderer.frameTime`, `renderer.lastLoopTime`,
`renderer.renderFirstFrame` and `renderer.fastForwardSpeed` are not
touched anywhere in this function. -/
def loadGame (r0 : MEmscriptenRenderer) (found : Option EmCore)
    (loadFileOk : Bool) (baseW baseH curW curH : Nat) :
    MEmscriptenRenderer × Bool :=
  let r :=
    match r0.core with
    | some _ => { r0 with core := none }
    | none => r0
  match found with
  | none => (r, false)
  | some c =>
    let c := { c with
      savegamePath := "/data/saves",
      savestatePath := "/data/states",
      cheatsPath := "/data/cheats",
      screenshotPath := "/data/screenshots" }
    let c := { c with
      configStr := setConfigStr c.configStr "idleOptimization" "detect",
      config := setConfigInt c.config "volume" 0x100 }
    let c := { c with resetCount := c.resetCount + 1 }
    let r := { r with texW := baseW, texH := baseH, windowW := curW, windowH := curH }
    ({ r with
        core := some c,
        audio := { r.audio with running := true },
        mainLoopRunning := true },
      true)

/-- A machine instance used as a concrete witness input: empty key state,
an input map with no bindings, and the `volume` option set to 0x100 as
`loadGame` leaves it. -/
def c0 : EmCore :=
  { config := [("volume", 256)]
    configStr := []
    optsVolume := 256
    optsFrameskip := 0
    savegamePath := ""
    savestatePath := ""
    cheatsPath := ""
    screenshotPath := ""
    keys := 0
    mapKey := fun _ => -1
    resetCount := 0 }

/-- A renderer state with a loaded core and the render-first-frame flag
still set, as left by a first successful `loadGame`. -/
def loadedR : MEmscriptenRenderer :=
  { initialRenderer with core := some c0 }

/-- A loaded renderer state whose first frame has already been rendered
and whose accumulator holds 5 ms, as reached after some ticks of the run
loop. -/
def staleState : MEmscriptenRenderer :=
  { initialRenderer with core := some c0, frameTime := 5, renderFirstFrame := false }

/-- The state directly after `pauseGame` on a loaded renderer. -/
def pausedState : MEmscriptenRenderer :=
  pauseGame loadedR

/-- Views an operation result that may have crashed on a null handle as
an optional state. -/
def resultState (x : Except Unit MEmscriptenRenderer) :
    Option MEmscriptenRenderer :=
  match x with
  | .ok s => some s
  | .error _ => none

/-- A key-down event for the keysym `f` with the left-Ctrl modifier held
(`KMOD_LCTRL = 0x40`), a modifier combination that suppresses general
key translation. -/
def ctrlF : KeyboardEvent :=
  { sym := 102, mod := 0x40, isKeyDown := true }

/-! ### Helper lemmas -/

lemma truncTowardZero_eq_floor (q : ℚ) (h : 0 ≤ q) : truncTowardZero q = ⌊q⌋ := by
  simp [truncTowardZero, h]

lemma nonneg_of_one_le_trunc (q : ℚ) (h : 1 ≤ truncTowardZero q) : 0 ≤ q := by
  by_contra hq
  push_neg at hq
  have hfl : (0 : ℤ) ≤ ⌊-q⌋ := Int.floor_nonneg.mpr (by linarith)
  rw [truncTowardZero, if_neg (not_le.mpr hq)] at h
  omega

lemma getConfigInt_setConfigInt (cfg : List (String × Int)) (k : String) (v : Int) :
    getConfigInt (setConfigInt cfg k v) k = some v := by
  simp [getConfigInt, setConfigInt]

lemma handleKeypressCore_frameTime (ev : KeyboardEvent) (r : MEmscriptenRenderer)
    (c : EmCore) : (handleKeypressCore ev r c).frameTime = r.frameTime := by
  unfold handleKeypressCore
  split_ifs <;> rfl

lemma handleKeypressCore_lastLoopTime (ev : KeyboardEvent) (r : MEmscriptenRenderer)
    (c : EmCore) : (handleKeypressCore ev r c).lastLoopTime = r.lastLoopTime := by
  unfold handleKeypressCore
  split_ifs <;> rfl

lemma handleKeypressCore_renderFirstFrame (ev : KeyboardEvent) (r : MEmscriptenRenderer)
    (c : EmCore) : (handleKeypressCore ev r c).renderFirstFrame = r.renderFirstFrame := by
  unfold handleKeypressCore
  split_ifs <;> rfl

lemma handleKeypressCore_core_isSome (ev : KeyboardEvent) (r : MEmscriptenRenderer)
    (c : EmCore) (h : r.core.isSome = true) :
    (handleKeypressCore ev r c).core.isSome = true := by
  unfold handleKeypressCore
  split_ifs <;> simp_all

lemma processEvents_fields (evs : List KeyboardEvent) :
    ∀ r : MEmscriptenRenderer,
      (processEvents evs r).frameTime = r.frameTime ∧
      (processEvents evs r).lastLoopTime = r.lastLoopTime ∧
      (processEvents evs r).renderFirstFrame = r.renderFirstFrame ∧
      (processEvents evs r).core.isSome = r.core.isSome := by
  induction evs with
  | nil =>
    intro r
    exact ⟨rfl, rfl, rfl, rfl⟩
  | cons ev evs ih =>
    intro r
    have hstep : processEvents (ev :: evs) r =
        processEvents evs
          (match r.core with
           | some c => handleKeypressCore ev r c
           | none => r) := rfl
    rw [hstep]
    cases hr : r.core with
    | none =>
      simpa [hr] using ih r
    | some c =>
      have h4 := ih (handleKeypressCore ev r c)
      simp only [hr]
      refine ⟨?_, ?_, ?_, ?_⟩
      · rw [h4.1, handleKeypressCore_frameTime]
      · rw [h4.2.1, handleKeypressCore_lastLoopTime]
      · rw [h4.2.2.1, handleKeypressCore_renderFirstFrame]
      · rw [h4.2.2.2, handleKeypressCore_core_isSome ev r c (by rw [hr]; rfl)]
        rfl

lemma frameTime_sub_lt (ft : ℚ) (n : ℤ)
    (hn : n = truncTowardZero ((ft + 1/5) / targetFrameTime)) (h1 : 1 ≤ n) :
    ft - (n : ℚ) * targetFrameTime < targetFrameTime := by
  have hq0 : 0 ≤ (ft + 1/5) / targetFrameTime :=
    nonneg_of_one_le_trunc _ (hn ▸ h1)
  have hfl : n = ⌊(ft + 1/5) / targetFrameTime⌋ := by
    rw [hn, truncTowardZero_eq_floor _ hq0]
  have hT : (0 : ℚ) < targetFrameTime := by norm_num [targetFrameTime]
  have hlt : (ft + 1/5) / targetFrameTime < (n : ℚ) + 1 := by
    rw [hfl]
    exact Int.lt_floor_add_one _
  have hlt2 : ft + 1/5 < ((n : ℚ) + 1) * targetFrameTime := (div_lt_iff hT).mp hlt
  have hTval : targetFrameTime = 50 / 3 := by norm_num [targetFrameTime]
  rw [hTval] at hlt2 ⊢
  linarith

lemma runLoop_flagged_frames (events : List KeyboardEvent)
    (r : MEmscriptenRenderer) (c : EmCore) (now : ℚ)
    (hc : r.core = some c) (hflag : r.renderFirstFrame = true) :
    (runLoop events r now).2 =
      if 1 ≤ truncTowardZero ((r.frameTime + (now - r.lastLoopTime) + 1/5) / targetFrameTime)
      then 1 else 0 := by
  obtain ⟨hft, hllt, hff, hsome⟩ := processEvents_fields events r
  unfold runLoop
  cases hP : (processEvents events r).core with
  | none =>
    rw [hP, hc] at hsome
    simp at hsome
  | some c2 =>
    simp only [hP]
    rw [hft, hllt]
    have hPflag : (processEvents events r).renderFirstFrame = true := by
      rw [hff, hflag]
    simp only [hPflag, eq_self_iff_true, if_true]
    split_ifs <;> (try dsimp only) <;> omega

/-! ### Claim theorems -/

/-- C6: for every single Tick of the run loop, regardless of how large
the elapsed time for that tick is and regardless of the fast-forward
multiplier, the number of emulation frames executed in that tick is at
most 20. -/
theorem frames_per_tick_le_twenty (events : List KeyboardEvent)
    (r : MEmscriptenRenderer) (now : ℚ) :
    (runLoop events r now).2 ≤ 20 := by
  unfold runLoop
  cases hc : (processEvents events r).core with
  | none => simp [hc]
  | some c =>
    simp only [hc]
    split_ifs <;> simp_all

/-- C9: the fast-forward toggle key `f` is intercepted before the
modifier filter: any key event whose keysym is `f` only sets the
fast-forward speed (2 on key-down, 1 on key-up), whatever modifiers are
held, and performs no general key translation — the returned state
differs from the input state in the `fastForwardSpeed` field alone, so
the core's key mask is untouched. -/
theorem fastForward_key_bypasses_modifier_filter (event : KeyboardEvent)
    (r : MEmscriptenRenderer) (c : EmCore) (hsym : event.sym = SDLK_f) :
    handleKeypressCore event r c =
      { r with fastForwardSpeed := if event.isKeyDown then 2 else 1 } := by
  unfold handleKeypressCore
  rw [if_pos hsym]

/-- Witness for C9 at a concrete input: a Ctrl+f key-down event. -/
theorem fastForward_key_bypasses_modifier_filter_witness :
    handleKeypressCore ctrlF loadedR c0 =
      { loadedR with fastForwardSpeed := if ctrlF.isKeyDown then 2 else 1 } :=
  fastForward_key_bypasses_modifier_filter ctrlF loadedR c0 rfl

/-- C7: `setVolume` with an argument above 2.0 or below 0 is a complete
no-op — the state (including the stored volume and the audio running
flag) is unchanged, and a subsequent `getVolume` returns its prior
value; no error is reported (the function returns nothing). -/
theorem setVolume_out_of_range_noop (vol : ℚ) (r : MEmscriptenRenderer)
    (h : 2 < vol ∨ vol < 0) :
    setVolume vol r = r ∧ getVolume (setVolume vol r) = getVolume r := by
  have h1 : setVolume vol r = r := by
    unfold setVolume
    rw [if_pos h]
  exact ⟨h1, by rw [h1]⟩

/-- Witness for C7 at the concrete out-of-range volume 2.1. -/
theorem setVolume_out_of_range_noop_witness :
    setVolume (21/10) initialRenderer = initialRenderer ∧
    getVolume (setVolume (21/10) initialRenderer) = getVolume initialRenderer :=
  setVolume_out_of_range_noop (21/10) initialRenderer (Or.inl (by norm_num))

/-- C2 (code bug): with no core loaded, `saveState` returns `false`,
`buttonPress` is a no-op and `pauseGame` does not touch the core, but
`quickReload` dereferences the null core handle
(`renderer.core->reset(renderer.core)` with no null check), modelled
here as the error result. -/
theorem quickReload_null_core_dereference :
    quickReload initialRenderer = .error () ∧
    saveState 1 true initialRenderer = false ∧
    buttonPress 4 initialRenderer = initialRenderer ∧
    pauseGame initialRenderer =
      { initialRenderer with
        renderFirstFrame := true,
        audio := { initialRenderer.audio with running := false },
        mainLoopRunning := false } :=
  ⟨rfl, rfl, rfl, rfl⟩

/-- C3 (amended): with a session loaded, `quickReload`, `pauseGame` and
`quitGame` set the render-first-frame flag to true but leave the
frame-time accumulator unchanged (it is never zeroed), while `loadGame`
and `resumeGame` leave both the flag and the accumulator unchanged. -/
theorem lifecycle_pacing_effects (r : MEmscriptenRenderer) (c : EmCore)
    (hc : r.core = some c) :
    (∀ r2, quickReload r = .ok r2 →
      r2.renderFirstFrame = true ∧ r2.frameTime = r.frameTime) ∧
    ((pauseGame r).renderFirstFrame = true ∧
      (pauseGame r).frameTime = r.frameTime) ∧
    (∀ r2, resumeGame r = .ok r2 →
      r2.renderFirstFrame = r.renderFirstFrame ∧ r2.frameTime = r.frameTime) ∧
    ((quitGame r).renderFirstFrame = true ∧
      (quitGame r).frameTime = r.frameTime) ∧
    (∀ found loadFileOk bw bh cw ch,
      (loadGame r found loadFileOk bw bh cw ch).1.renderFirstFrame = r.renderFirstFrame ∧
      (loadGame r found loadFileOk bw bh cw ch).1.frameTime = r.frameTime) := by
  refine ⟨?_, ⟨rfl, rfl⟩, ?_, ?_, ?_⟩
  · intro r2 h2
    simp only [quickReload, hc, Except.ok.injEq] at h2
    subst h2
    exact ⟨rfl, rfl⟩
  · intro r2 h2
    simp only [resumeGame, hc, Except.ok.injEq] at h2
    subst h2
    split_ifs <;> exact ⟨rfl, rfl⟩
  · simp [quitGame, hc]
  · intro found loadFileOk bw bh cw ch
    cases found <;> simp [loadGame, hc]

/-- Witness for C3's amended statement on a concrete loaded state. -/
theorem lifecycle_pacing_effects_witness :
    (pauseGame loadedR).renderFirstFrame = true :=
  (lifecycle_pacing_effects loadedR c0 rfl).2.1.1

/-- Counterexample for C3 as stated: a successful `loadGame` on a state
whose accumulator holds 5 ms and whose render-first-frame flag is
cleared leaves the accumulator non-zero and the flag false — the frame
pacing state is NOT reset on Load. -/
theorem loadGame_keeps_stale_pacing :
    (loadGame staleState (some c0) true 240 160 240 160).1.frameTime ≠ 0 ∧
    (loadGame staleState (some c0) true 240 160 240 160).1.renderFirstFrame = false := by
  refine ⟨?_, rfl⟩
  decide

/-- C4 (amended): `loadGame` returns failure with no session left loaded
exactly when the machine handle cannot be created (`mCoreFind` returns
null); the result of loading the program image (`mCoreLoadFile`) is
ignored, so `loadGame` still returns success with a session loaded when
the image cannot be loaded, and its result does not depend on that
outcome at all. -/
theorem loadGame_failure_only_when_core_missing (r : MEmscriptenRenderer)
    (found : Option EmCore) (ok1 ok2 : Bool) (bw bh cw ch : Nat) :
    (found = none →
      (loadGame r found ok1 bw bh cw ch).2 = false ∧
      (loadGame r found ok1 bw bh cw ch).1.core = none) ∧
    (∀ c, found = some c →
      (loadGame r found ok1 bw bh cw ch).2 = true ∧
      (loadGame r found ok1 bw bh cw ch).1.core.isSome = true) ∧
    loadGame r found ok1 bw bh cw ch = loadGame r found ok2 bw bh cw ch := by
  refine ⟨?_, ?_, rfl⟩
  · intro h
    subst h
    cases hr : r.core <;> simp [loadGame, hr]
  · intro c h
    subst h
    cases hr : r.core <;> simp [loadGame, hr]

/-- Witness for C4's amended statement at a concrete input. -/
theorem loadGame_failure_only_when_core_missing_witness :
    (loadGame initialRenderer (some c0) false 240 160 240 160).2 = true ∧
    (loadGame initialRenderer (some c0) false 240 160 240 160).1.core.isSome = true :=
  (loadGame_failure_only_when_core_missing initialRenderer (some c0) false true
    240 160 240 160).2.1 c0 rfl

/-- Counterexample for C4 as stated: when the program image cannot be
loaded (`mCoreLoadFile` fails, `loadFileOk = false`) but `mCoreFind`
succeeded, `loadGame` returns success and a session handle is set — it
does not fail and does not stay unloaded. -/
theorem loadGame_ignores_image_load_failure :
    (loadGame loadedR (some c0) false 240 160 240 160).2 = true ∧
    (loadGame loadedR (some c0) false 240 160 240 160).1.core.isSome = true :=
  ⟨rfl, rfl⟩

/-- C5: after any Tick with a loaded session in which at least one frame
was executed, the frame-time accumulator lies in
`[0, targetFrameTime)` — in particular it is never negative. -/
theorem accumulator_normalized_after_frames (events : List KeyboardEvent)
    (r : MEmscriptenRenderer) (now : ℚ)
    (h : 1 ≤ (runLoop events r now).2) :
    0 ≤ (runLoop events r now).1.frameTime ∧
    (runLoop events r now).1.frameTime < targetFrameTime := by
  unfold runLoop at h ⊢
  cases hP : (processEvents events r).core with
  | none =>
    simp only [hP] at h
    simp at h
  | some c2 =>
    simp only [hP] at h ⊢
    split_ifs at h ⊢
    all_goals dsimp only at h ⊢
    all_goals try (exfalso; omega)
    all_goals constructor
    all_goals first
      | exact le_refl 0
      | exact le_of_not_lt (by assumption)
      | (norm_num [targetFrameTime]; done)
      | exact frameTime_sub_lt _ _ rfl (by omega)

/-- Witness for C5 at a concrete input where one frame runs. -/
theorem accumulator_normalized_after_frames_witness :
    0 ≤ (runLoop [] loadedR 100).1.frameTime ∧
    (runLoop [] loadedR 100).1.frameTime < targetFrameTime :=
  accumulator_normalized_after_frames [] loadedR 100 (by
    rw [runLoop_flagged_frames [] loadedR c0 100 rfl rfl]
    norm_num [loadedR, initialRenderer, truncTowardZero, targetFrameTime])

/-- C1 (amended): from any state with a session loaded and the
render-first-frame flag set — the state `Resume` yields when the flag
was set by `Pause`, and a first `Load` yields from the initial state;
neither `loadGame` nor `resumeGame` sets the flag itself — the very next
Tick executes exactly one frame if its computed frame count
`floor((accumulator + elapsed + 0.2) / frameDurationMs)` is at least 1,
and zero frames otherwise (in particular zero when `elapsedMs = 0` and
the accumulator is empty). -/
theorem flagged_tick_runs_exactly_one_frame (events : List KeyboardEvent)
    (r : MEmscriptenRenderer) (c : EmCore) (now : ℚ)
    (hc : r.core = some c) (hflag : r.renderFirstFrame = true) :
    (runLoop events r now).2 =
      if 1 ≤ truncTowardZero ((r.frameTime + (now - r.lastLoopTime) + 1/5) / targetFrameTime)
      then 1 else 0 :=
  runLoop_flagged_frames events r c now hc hflag

/-- Witness for C1's amended statement on a concrete loaded state. -/
theorem flagged_tick_runs_exactly_one_frame_witness :
    (runLoop [] loadedR 100).2 =
      if 1 ≤ truncTowardZero ((loadedR.frameTime + (100 - loadedR.lastLoopTime) + 1/5) / targetFrameTime)
      then 1 else 0 :=
  flagged_tick_runs_exactly_one_frame [] loadedR c0 100 rfl rfl

/-- Counterexample for C1 as stated: in the state reached immediately
after `resumeGame` on a paused session, a Tick with zero elapsed time
(`now` equal to the last loop timestamp) executes ZERO frames, not
exactly one — the first-frame branch sits behind the
`nowFramesInt < 1` early return. -/
theorem resume_with_zero_elapsed_runs_no_frame :
    (resultState (resumeGame pausedState)).map (fun s => (runLoop [] s 0).2) =
      some 0 := by
  have h1 : resumeGame pausedState =
      .ok { pausedState with
            audio := { pausedState.audio with running := true },
            mainLoopRunning := true } := rfl
  rw [h1]
  have h2 : resultState (.ok { pausedState with
      audio := { pausedState.audio with running := true },
      mainLoopRunning := true }) =
    some { pausedState with
      audio := { pausedState.audio with running := true },
      mainLoopRunning := true } := rfl
  rw [h2]
  simp only [Option.map_some']
  rw [runLoop_flagged_frames [] _ c0 0 rfl rfl]
  norm_num [pausedState, pauseGame, loadedR, initialRenderer, truncTowardZero,
    targetFrameTime]

/-- C8: on a loaded session, `setFastForwardMultiplier m` with `m > 0`
succeeds, makes `getFastForwardMultiplier` return `m`, and retargets the
nominal audio playback rate to `60 * m`; with `m ≤ 0` the call is
silently ignored and the state is completely unchanged. -/
theorem setFastForwardMultiplier_sets_speed_and_audio (m : Int)
    (r : MEmscriptenRenderer) (c : EmCore) (hc : r.core = some c) :
    (0 < m → ∃ r2, setFastForwardMultiplier m r = .ok r2 ∧
      getFastForwardMultiplier r2 = m ∧ r2.audio.fpsTarget = 60 * (m : ℚ)) ∧
    (m ≤ 0 → setFastForwardMultiplier m r = .ok r) := by
  constructor
  · intro hm
    unfold setFastForwardMultiplier
    rw [if_pos hm, hc]
    exact ⟨_, rfl, rfl, rfl⟩
  · intro hm
    unfold setFastForwardMultiplier
    rw [if_neg (not_lt.mpr hm)]

/-- Witness for C8 at the concrete multiplier 3 on a loaded state. -/
theorem setFastForwardMultiplier_sets_speed_and_audio_witness :
    ∃ r2, setFastForwardMultiplier 3 loadedR = .ok r2 ∧
      getFastForwardMultiplier r2 = 3 ∧ r2.audio.fpsTarget = 60 * ((3 : Int) : ℚ) :=
  (setFastForwardMultiplier_sets_speed_and_audio 3 loadedR c0 rfl).1 (by norm_num)

/-- C10: on a loaded session, `setFastForwardMultiplier m` with `m > 0`
also sets the core configuration option `frameskip` to `m - 1` and
reloads that option into the core's loaded options, so normal speed
`m = 1` yields frameskip 0 and a multiplier `m > 1` skips `m - 1`
frames of rendering. -/
theorem setFastForwardMultiplier_sets_frameskip (m : Int)
    (r : MEmscriptenRenderer) (c : EmCore) (hc : r.core = some c) (hm : 0 < m) :
    ∃ r2 c2, setFastForwardMultiplier m r = .ok r2 ∧ r2.core = some c2 ∧
      getConfigInt c2.config "frameskip" = some (m - 1) ∧
      c2.optsFrameskip = m - 1 := by
  unfold setFastForwardMultiplier
  rw [if_pos hm, hc]
  exact ⟨_, _, rfl, rfl, getConfigInt_setConfigInt _ _ _, rfl⟩

/-- Witness for C10 at the concrete multiplier 3 on a loaded state. -/
theorem setFastForwardMultiplier_sets_frameskip_witness :
    ∃ r2 c2, setFastForwardMultiplier 3 loadedR = .ok r2 ∧ r2.core = some c2 ∧
      getConfigInt c2.config "frameskip" = some ((3 : Int) - 1) ∧
      c2.optsFrameskip = (3 : Int) - 1 :=
  setFastForwardMultiplier_sets_frameskip 3 loadedR c0 rfl (by norm_num)

end MgbaWasm
